import Mathlib

/-!
Shallow embedding of `src/library/sheet.jsx` (the `SheetElement` custom
element of the bottom-sheet widget) and proofs about its behaviour.

The DOM state a handler can observe or mutate is collected in the `Sheet`
structure: the three marker attributes (`open`, `ignore-background-click`,
`ignore-escape-key`), the private drag fields (`#dragPosition`,
`#scaleDownTo`), the inline style written during a drag, and the ordered
list of `CustomEvent`s dispatched so far.  JS numbers are modelled as `ℚ`
(every computation the claims exercise is exact), JS values assigned to
properties as the inductive `JSVal`, and the opaque helper results
(`elementContains`, `isFocused`, `event.composedPath()`) as boolean fields
of the corresponding event records, matching the collaborator contracts.
-/

namespace BottomSheet

/-- The notifications the element dispatches: `new CustomEvent("open")`
and `new CustomEvent("close")`. -/
inductive SheetEvent where
  | openEvent
  | closeEvent
deriving DecidableEq

/-- A JavaScript value, as far as the sheet's property setters can
distinguish one: `undefined`, `null`, booleans, numbers and strings. -/
inductive JSVal where
  | undefined
  | null
  | bool (b : Bool)
  | num (q : ℚ)
  | str (s : String)
deriving DecidableEq

/-- JavaScript truthiness (`Boolean(value)`): everything is truthy except
`undefined`, `null`, `false`, `0` and the empty string. -/
def truthy : JSVal → Bool
  | JSVal.undefined => false
  | JSVal.null => false
  | JSVal.bool b => b
  | JSVal.num q => q != 0
  | JSVal.str s => s != ""

/-- State of one `SheetElement` instance.

* `openAttr` — presence of the `open` attribute;
* `ignoreBackgroundClick`, `ignoreEscapeKey` — presence of the
  `ignore-background-click` / `ignore-escape-key` attributes;
* `dragPosition` — the private `#dragPosition` field (`none` = `undefined`);
* `clientHeight` — `this.#sheet.clientHeight`;
* `scaleDownTo` — the private `#scaleDownTo` field;
* `transform` — the inline `translateY`/`scale` pair set on
  `this.#sheet.style.transform` (`none` = the empty string);
* `transitionNone` — whether `style.transition` is `"none"`;
* `isResized` — presence of the `is-resized` class on the inner wrapper;
* `cursorGrabbing` — whether the grabbing cursor override is active;
* `events` — the notifications dispatched so far, oldest first. -/
structure Sheet where
  openAttr : Bool
  ignoreBackgroundClick : Bool
  ignoreEscapeKey : Bool
  dragPosition : Option ℚ
  clientHeight : ℚ
  scaleDownTo : ℚ
  transform : Option (ℚ × ℚ)
  transitionNone : Bool
  isResized : Bool
  cursorGrabbing : Bool
  events : List SheetEvent
deriving DecidableEq

/-- Method `showModal()`: set the `open` attribute, dispatch an `open` event. -/
def showModal (s : Sheet) : Sheet :=
  { s with openAttr := true, events := s.events ++ [SheetEvent.openEvent] }

/-- Method `show()` — the source's `show` is an alias that calls `showModal()`
(`show` is a reserved word in Lean, hence the suffix). -/
def showSheet (s : Sheet) : Sheet :=
  showModal s

/-- Method `close()`: remove the `open` attribute, dispatch a `close` event —
unconditionally, with no guard on the prior state. -/
def close (s : Sheet) : Sheet :=
  { s with openAttr := false, events := s.events ++ [SheetEvent.closeEvent] }

/-- Getter of `options.closeOnBackgroundClick`:
`!this.hasAttribute("ignore-background-click")`. -/
def closeOnBackgroundClick (s : Sheet) : Bool :=
  !s.ignoreBackgroundClick

/-- Getter of `options.closeOnEscapeKey`:
`!this.hasAttribute("ignore-escape-key")`. -/
def closeOnEscapeKey (s : Sheet) : Bool :=
  !s.ignoreEscapeKey

/-- Setter of `options.closeOnBackgroundClick`: a truthy value removes the
`ignore-background-click` attribute, a falsy one sets it. -/
def setCloseOnBackgroundClick (s : Sheet) (v : JSVal) : Sheet :=
  if truthy v then { s with ignoreBackgroundClick := false }
  else { s with ignoreBackgroundClick := true }

/-- Setter of `options.closeOnEscapeKey`: a truthy value removes the
`ignore-escape-key` attribute, a falsy one sets it. -/
def setCloseOnEscapeKey (s : Sheet) (v : JSVal) : Sheet :=
  if truthy v then { s with ignoreEscapeKey := false }
  else { s with ignoreEscapeKey := true }

/-- Getter of the `open` property: `this.hasAttribute("open")`. -/
def getOpen (s : Sheet) : Bool :=
  s.openAttr

/-- Setter of the `open` property: the source tests
`value === false || value === undefined` (strict equality, not
truthiness) and calls `close()` on a match, `show()` otherwise. -/
def setOpen (s : Sheet) (v : JSVal) : Sheet :=
  if v = JSVal.bool false ∨ v = JSVal.undefined then close s else showSheet s

/-- A click event, reduced to the one fact `#onClick` extracts from it:
whether `event.composedPath()` contains the inner wrapper `this.#sheet`. -/
structure ClickEvent where
  pathIncludesSheetContents : Bool
deriving DecidableEq

/-- Handler `#onClick`: close when the propagation path misses the inner wrapper
and `options.closeOnBackgroundClick` holds. -/
def onClick (s : Sheet) (e : ClickEvent) : Sheet :=
  if !e.pathIncludesSheetContents && closeOnBackgroundClick s then close s
  else s

/-- Handler `#onCloseButtonClick`: always `close()`. -/
def onCloseButtonClick (s : Sheet) : Sheet :=
  close s

/-- A keyboard event, reduced to the facts `#onKeyUp` extracts from it:
`event.key`, `elementContains(event.target, this)` and
`isFocused(event.target)` (the latter two are results of the opaque
helpers, recorded as booleans on the event). -/
structure KeyEvent where
  key : String
  targetInsideSheet : Bool
  targetFocused : Bool
deriving DecidableEq

/-- Handler `#onKeyUp`: close on Escape when the target is not a focused element
inside the sheet and `options.closeOnEscapeKey` holds. -/
def onKeyUp (s : Sheet) (e : KeyEvent) : Sheet :=
  let isSheetElementFocused := e.targetInsideSheet && e.targetFocused
  if e.key == "Escape" && !isSheetElementFocused && closeOnEscapeKey s then
    close s
  else s

/-- Modelled from the spec: `mapNumber` lives in `src/library/helpers.js`,
which is absent from the sources; the spec describes it as linear
interpolation of `value` from `fromRange` onto `toRange`
(`mapNumber(value, fromRange, toRange) -> number (linear interpolation)`,
with `lerp(50, [0,100], [0.9,1]) = 0.95` as worked example). -/
def mapNumber (value : ℚ) (fromRange toRange : ℚ × ℚ) : ℚ :=
  toRange.1 + (value - fromRange.1) * (toRange.2 - toRange.1) / (fromRange.2 - fromRange.1)

/-- Method `#dragSheet`: apply `translateY(100 - d)% scale(mapNumber(d, [0,100],
[scaleDownTo, 1]))` and disable transitions. -/
def dragSheet (s : Sheet) (distanceToTheBottomInPercents : ℚ) : Sheet :=
  let translateY := 100 - distanceToTheBottomInPercents
  let scale := mapNumber distanceToTheBottomInPercents (0, 100) (s.scaleDownTo, 1)
  { s with transform := some (translateY, scale), transitionNone := true }

/-- Handler `#onDragStart`: record the vertical position, mark the sheet as being
resized, set the grabbing cursor, and read `--scale-down-to` (the CSS
variable read is opaque; its numeric result is the second argument). -/
def onDragStart (s : Sheet) (pageY scaleDownToValue : ℚ) : Sheet :=
  { s with dragPosition := some pageY, isResized := true,
           cursorGrabbing := true, scaleDownTo := scaleDownToValue }

/-- Method `#getDistanceToTheBottomInPercents`: `deltaY = #dragPosition - y`,
`100 + deltaY / clientHeight * 100`, clamped to `[0, 100]`.  The recorded
drag position is passed explicitly as `pos`. -/
def getDistanceToTheBottomInPercents (s : Sheet) (pos y : ℚ) : ℚ :=
  let deltaY := pos - y
  let distanceToTheBottomInPercents := 100 + deltaY / s.clientHeight * 100
  max 0 (min 100 distanceToTheBottomInPercents)

/-- Handler `#onDragMove`: no-op without an active drag session, otherwise apply
the transform for the current distance. -/
def onDragMove (s : Sheet) (pageY : ℚ) : Sheet :=
  match s.dragPosition with
  | none => s
  | some pos => dragSheet s (getDistanceToTheBottomInPercents s pos pageY)

/-- Handler `#onDragEnd`: no-op without an active drag session; otherwise close
when the final distance is strictly below 75, then unconditionally reset
the cursor, clear the session, the resize marker and the style overrides. -/
def onDragEnd (s : Sheet) (pageY : ℚ) : Sheet :=
  match s.dragPosition with
  | none => s
  | some pos =>
    let d := getDistanceToTheBottomInPercents s pos pageY
    let s1 := if d < 75 then close s else s
    { s1 with cursorGrabbing := false, dragPosition := none,
              isResized := false, transform := none, transitionNone := false }

/-- One call of a `show()`/`close()` sequence. -/
inductive SheetCall where
  | callShow
  | callClose
deriving DecidableEq

/-- Apply one call to a sheet. -/
def SheetCall.apply (c : SheetCall) (s : Sheet) : Sheet :=
  match c with
  | SheetCall.callShow => showSheet s
  | SheetCall.callClose => close s

/-- The notification a call dispatches. -/
def SheetCall.event : SheetCall → SheetEvent
  | SheetCall.callShow => SheetEvent.openEvent
  | SheetCall.callClose => SheetEvent.closeEvent

/-- Run a sequence of `show()`/`close()` calls left to right. -/
def runCalls (s : Sheet) : List SheetCall → Sheet
  | [] => s
  | c :: cs => runCalls (c.apply s) cs

/-- Which bound method of `#eventListeners` a window listener refers to. -/
inductive HandlerKind where
  | keyUpHandler
  | dragMoveHandler
  | dragEndHandler
deriving DecidableEq

/-- One entry of the window's listener list: the event type it is
registered for, the instance whose bound method it is (bound methods are
stable per instance, so the pair `(inst, kind)` identifies the function
reference), and the method. -/
structure Listener where
  eventType : String
  inst : ℕ
  kind : HandlerKind
deriving DecidableEq

/-- Model of `window.addEventListener`: appends, except that re-adding an already
registered listener is a no-op. -/
def addEventListener (L : List Listener) (l : Listener) : List Listener :=
  if l ∈ L then L else L ++ [l]

/-- The five `(type, handler)` pairs instance `i` registers, in the order
`connectedCallback` adds them. -/
def instanceListeners (i : ℕ) : List Listener :=
  [⟨"keyup", i, HandlerKind.keyUpHandler⟩,
   ⟨"mousemove", i, HandlerKind.dragMoveHandler⟩,
   ⟨"touchmove", i, HandlerKind.dragMoveHandler⟩,
   ⟨"mouseup", i, HandlerKind.dragEndHandler⟩,
   ⟨"touchend", i, HandlerKind.dragEndHandler⟩]

/-- Lifecycle hook `connectedCallback` of instance `i`: add the five window listeners. -/
def connectedCallback (i : ℕ) (L : List Listener) : List Listener :=
  (instanceListeners i).foldl addEventListener L

/-- Lifecycle hook `disconnectedCallback` of instance `i`: remove the same five
listeners (`window.removeEventListener` drops the matching entry). -/
def disconnectedCallback (i : ℕ) (L : List Listener) : List Listener :=
  (instanceListeners i).foldl List.erase L

/-- A global window event, carrying every field some handler reads. -/
structure WindowEvent where
  eventType : String
  pageY : ℚ
  key : String
  targetInsideSheet : Bool
  targetFocused : Bool

/-- Dispatch a window event: every registered listener of instance `i`
whose type matches runs its bound method on that instance's state. -/
def handleWindowEvent (L : List Listener) (i : ℕ) (e : WindowEvent) (s : Sheet) : Sheet :=
  L.foldl
    (fun acc l =>
      if l.inst = i ∧ l.eventType = e.eventType then
        match l.kind with
        | HandlerKind.keyUpHandler =>
            onKeyUp acc ⟨e.key, e.targetInsideSheet, e.targetFocused⟩
        | HandlerKind.dragMoveHandler => onDragMove acc e.pageY
        | HandlerKind.dragEndHandler => onDragEnd acc e.pageY
      else acc)
    s

/-- A freshly constructed, closed sheet with no flags set; concrete
geometry for the worked scenarios. -/
def initialSheet : Sheet :=
  { openAttr := false, ignoreBackgroundClick := false, ignoreEscapeKey := false,
    dragPosition := none, clientHeight := 400, scaleDownTo := 1,
    transform := none, transitionNone := false, isResized := false,
    cursorGrabbing := false, events := [] }
/-- A drag session in progress on the worked-scenario sheet: the sheet is
open, `#dragPosition = 300` was recorded, `clientHeight = 400`. -/
def dragReleaseSheet : Sheet :=
  { initialSheet with openAttr := true, dragPosition := some 300 }

/-- Every `show()`/`close()` call appends exactly its matching
notification. -/
theorem apply_events (c : SheetCall) (s : Sheet) :
    (c.apply s).events = s.events ++ [c.event] := by
  cases c <;> simp [SheetCall.apply, SheetCall.event, showSheet, showModal, close]

/-- Running a call sequence appends exactly the matching notifications in
order. -/
theorem runCalls_events (s : Sheet) (calls : List SheetCall) :
    (runCalls s calls).events = s.events ++ calls.map SheetCall.event := by
  induction calls generalizing s with
  | nil => simp [runCalls]
  | cons c cs ih => simp [runCalls, ih, apply_events]

/-- After a call sequence, the `open` attribute is present exactly when
the last call was `show()`. -/
theorem runCalls_openAttr (s : Sheet) (calls : List SheetCall) (c : SheetCall)
    (h : calls.getLast? = some c) :
    (runCalls s calls).openAttr = (c == SheetCall.callShow) := by
  induction calls generalizing s with
  | nil => simp at h
  | cons c0 cs ih =>
    cases cs with
    | nil =>
      simp at h
      subst h
      cases c0 <;> simp [runCalls, SheetCall.apply, showSheet, showModal, close]
    | cons c1 cs1 =>
      rw [List.getLast?_cons_cons] at h
      exact ih _ h

/-- Claim C1: for every sequence of `show()`/`close()` calls, the final
presence of the `open` marker attribute equals whether the last call was
`show()`, and every call — including a `close()` on an already closed
sheet — dispatches exactly one matching notification (the dispatched
event list grows by exactly the per-call event, in order). -/
theorem c1_show_close_sequences (s : Sheet) (calls : List SheetCall) :
    (runCalls s calls).events = s.events ++ calls.map SheetCall.event
    ∧ ∀ c, calls.getLast? = some c →
        (runCalls s calls).openAttr = (c == SheetCall.callShow) :=
  ⟨runCalls_events s calls, fun c h => runCalls_openAttr s calls c h⟩

/-- Witness for C1 on a concrete sequence ending in `close()` after a
`close()` on an already-closed sheet. -/
theorem c1_show_close_sequences_witness :
    (runCalls initialSheet
        [SheetCall.callClose, SheetCall.callShow, SheetCall.callClose]).events
      = initialSheet.events ++
        [SheetCall.callClose, SheetCall.callShow, SheetCall.callClose].map SheetCall.event
    ∧ (runCalls initialSheet
        [SheetCall.callClose, SheetCall.callShow, SheetCall.callClose]).openAttr
      = (SheetCall.callClose == SheetCall.callShow) :=
  ⟨(c1_show_close_sequences initialSheet
      [SheetCall.callClose, SheetCall.callShow, SheetCall.callClose]).1,
   (c1_show_close_sequences initialSheet
      [SheetCall.callClose, SheetCall.callShow, SheetCall.callClose]).2
      SheetCall.callClose rfl⟩

/-- Claim C2: on drag end with an active drag session on an open sheet,
the sheet ends up closed — and a `close` notification is dispatched — if
and only if the clamped distance-to-bottom percentage is strictly below
75; releasing at distance exactly 75 or above leaves the sheet open and
dispatches nothing. -/
theorem c2_dragEnd_closes_iff_below_75 (s : Sheet) (pos y : ℚ)
    (hdrag : s.dragPosition = some pos) (hopen : s.openAttr = true) :
    ((onDragEnd s y).openAttr = false ↔
      getDistanceToTheBottomInPercents s pos y < 75)
    ∧ ((onDragEnd s y).events = s.events ++ [SheetEvent.closeEvent] ↔
      getDistanceToTheBottomInPercents s pos y < 75)
    ∧ (75 ≤ getDistanceToTheBottomInPercents s pos y →
      (onDragEnd s y).openAttr = true ∧ (onDragEnd s y).events = s.events) := by
  unfold onDragEnd
  rw [hdrag]
  by_cases hd : getDistanceToTheBottomInPercents s pos y < 75
  · simp [hd, close]
  · simp [hd, hopen, not_lt.mp hd]

/-- Witness for C2: releasing the worked-scenario drag at `y = 500`
(distance 50 < 75) closes the sheet. -/
theorem c2_dragEnd_closes_iff_below_75_witness :
    (onDragEnd dragReleaseSheet 500).openAttr = false :=
  ((c2_dragEnd_closes_iff_below_75 dragReleaseSheet 300 500 rfl rfl).1).mpr
    (by norm_num [getDistanceToTheBottomInPercents, dragReleaseSheet, initialSheet])

/-- Claim C3: a key-up closes the sheet — dispatching one `close`
notification — exactly when the key is Escape, `closeOnEscapeKey` is
true, and the event target is not a focused element inside the sheet
(`elementContains(target, sheet) && isFocused(target)` fails); in every
other case the state is unchanged.  In particular Escape with focus on a
nested input inside the sheet does not close it, while Escape with focus
outside or absent does. -/
theorem c3_escape_key_closes_iff (s : Sheet) (e : KeyEvent) :
    ((onKeyUp s e).events = s.events ++ [SheetEvent.closeEvent] ↔
      (e.key = "Escape" ∧ closeOnEscapeKey s = true ∧
        ¬(e.targetInsideSheet = true ∧ e.targetFocused = true)))
    ∧ ((onKeyUp s e).events = s.events ↔
      ¬(e.key = "Escape" ∧ closeOnEscapeKey s = true ∧
        ¬(e.targetInsideSheet = true ∧ e.targetFocused = true))) := by
  obtain ⟨k, tin, tfoc⟩ := e
  by_cases hk : k = "Escape" <;>
    cases tin <;> cases tfoc <;> cases hesc : s.ignoreEscapeKey <;>
      simp [onKeyUp, close, closeOnEscapeKey, hk, hesc]

/-- Claim C4: a click whose propagation path misses the inner content
wrapper closes the sheet exactly when `closeOnBackgroundClick` is true
(any other click leaves the state unchanged), while the close button
always dispatches a `close`, regardless of any flag. -/
theorem c4_background_click_and_close_button (s : Sheet) (e : ClickEvent) :
    ((onClick s e).events = s.events ++ [SheetEvent.closeEvent] ↔
      (e.pathIncludesSheetContents = false ∧ closeOnBackgroundClick s = true))
    ∧ ((onClick s e).events = s.events ↔
      ¬(e.pathIncludesSheetContents = false ∧ closeOnBackgroundClick s = true))
    ∧ (onCloseButtonClick s).events = s.events ++ [SheetEvent.closeEvent]
    ∧ (onCloseButtonClick s).openAttr = false := by
  obtain ⟨p⟩ := e
  cases p <;> cases hbg : s.ignoreBackgroundClick <;>
    simp [onClick, onCloseButtonClick, close, closeOnBackgroundClick, hbg]

/-- Counterexample to claim C5: `null` is falsy, yet assigning it to the
`open` property runs `show()` — the sheet ends up open with an `open`
notification dispatched, not closed as the claim demands for every falsy
value. -/
theorem c5_falsy_null_counterexample :
    truthy JSVal.null = false
    ∧ setOpen initialSheet JSVal.null = showSheet initialSheet
    ∧ (setOpen initialSheet JSVal.null).openAttr = true
    ∧ (setOpen initialSheet JSVal.null).events = [SheetEvent.openEvent] := by
  refine ⟨rfl, ?_, ?_, ?_⟩ <;> simp [setOpen, initialSheet, showSheet, showModal]

/-- Claim C5 as amended: assigning `v` to the `open` property calls
`close()` exactly when `v` is strictly equal to `false` or `undefined`,
and `show()` for every other value — including falsy values such as
`null`, `0` or the empty string. -/
theorem c5_setOpen_strict_equality (s : Sheet) (v : JSVal) :
    (setOpen s v = close s ∨ setOpen s v = showSheet s)
    ∧ (setOpen s v = close s ↔ (v = JSVal.bool false ∨ v = JSVal.undefined)) := by
  by_cases hv : v = JSVal.bool false ∨ v = JSVal.undefined
  · simp [setOpen, hv]
  · constructor
    · right
      simp [setOpen, hv]
    · simp [setOpen, hv]
      intro heq
      have := congrArg (fun t => t.events) heq
      simp [showSheet, showModal, close] at this

/-- Claim C6: the worked drag scenario with `scaleDownTo = 0.9`, height
400 and `startY = 300`.  Moving to `y = 200` gives raw distance 125,
clamped to 100, transform `translateY(0%) scale(1)`; moving to `y = 500`
gives distance 50, transform `translateY(50%) scale(0.95)`, and releasing
there closes the sheet since 50 < 75. -/
theorem c6_worked_drag_scenario :
    (100 : ℚ) + (300 - 200) / (onDragStart initialSheet 300 (9/10)).clientHeight * 100 = 125
    ∧ getDistanceToTheBottomInPercents (onDragStart initialSheet 300 (9/10)) 300 200 = 100
    ∧ (onDragMove (onDragStart initialSheet 300 (9/10)) 200).transform = some (0, 1)
    ∧ (100 : ℚ) + (300 - 500) / (onDragStart initialSheet 300 (9/10)).clientHeight * 100 = 50
    ∧ getDistanceToTheBottomInPercents (onDragStart initialSheet 300 (9/10)) 300 500 = 50
    ∧ mapNumber 50 (0, 100) (9/10, 1) = 19/20
    ∧ (onDragMove (onDragStart initialSheet 300 (9/10)) 500).transform = some (50, 19/20)
    ∧ (onDragEnd (onDragStart initialSheet 300 (9/10)) 500).openAttr = false
    ∧ (onDragEnd (onDragStart initialSheet 300 (9/10)) 500).events = [SheetEvent.closeEvent] := by
  refine ⟨?_, ?_, ?_, ?_, ?_, ?_, ?_, ?_, ?_⟩ <;>
    norm_num [onDragMove, onDragEnd, onDragStart, initialSheet, dragSheet, mapNumber,
      getDistanceToTheBottomInPercents, close]

/-- Claim C7: in every state, `options.closeOnBackgroundClick` is the
negation of the `ignore-background-click` marker's presence and
`options.closeOnEscapeKey` the negation of the `ignore-escape-key`
marker's presence, and assigning either flag adds or removes exactly the
matching marker, preserving the correspondence. -/
theorem c7_options_mirror_ignore_markers (s : Sheet) (v : JSVal) :
    closeOnBackgroundClick s = !s.ignoreBackgroundClick
    ∧ closeOnEscapeKey s = !s.ignoreEscapeKey
    ∧ (setCloseOnBackgroundClick s v).ignoreBackgroundClick = !truthy v
    ∧ closeOnBackgroundClick (setCloseOnBackgroundClick s v) = truthy v
    ∧ (setCloseOnBackgroundClick s v).ignoreEscapeKey = s.ignoreEscapeKey
    ∧ (setCloseOnEscapeKey s v).ignoreEscapeKey = !truthy v
    ∧ closeOnEscapeKey (setCloseOnEscapeKey s v) = truthy v
    ∧ (setCloseOnEscapeKey s v).ignoreBackgroundClick = s.ignoreBackgroundClick := by
  cases htv : truthy v <;>
    simp [closeOnBackgroundClick, closeOnEscapeKey,
      setCloseOnBackgroundClick, setCloseOnEscapeKey, htv]

/-- Claim C8: a drag-move or drag-end arriving while no drag session is
active (`#dragPosition` undefined) leaves the whole state unchanged — no
close, no style change, no error. -/
theorem c8_no_session_is_noop (s : Sheet) (y : ℚ) (h : s.dragPosition = none) :
    onDragMove s y = s ∧ onDragEnd s y = s := by
  unfold onDragMove onDragEnd
  rw [h]
  exact ⟨rfl, rfl⟩

/-- Witness for C8 at the initial sheet, which has no drag session. -/
theorem c8_no_session_is_noop_witness :
    onDragMove initialSheet 0 = initialSheet ∧ onDragEnd initialSheet 0 = initialSheet :=
  c8_no_session_is_noop initialSheet 0 rfl

/-- Claim C9 helper: adding a listener that is not yet registered
appends it. -/
theorem addEventListener_of_not_mem (L : List Listener) (l : Listener) (h : l ∉ L) :
    addEventListener L l = L ++ [l] := by
  simp [addEventListener, h]

/-- Claim C9 helper: mounting a fresh instance appends exactly its five
window listeners, in order. -/
theorem connectedCallback_eq_append (i : ℕ) (L : List Listener)
    (h : ∀ l ∈ L, l.inst ≠ i) :
    connectedCallback i L = L ++ instanceListeners i := by
  have h1 : (⟨"keyup", i, HandlerKind.keyUpHandler⟩ : Listener) ∉ L :=
    fun hm => h _ hm rfl
  have h2 : (⟨"mousemove", i, HandlerKind.dragMoveHandler⟩ : Listener) ∉ L :=
    fun hm => h _ hm rfl
  have h3 : (⟨"touchmove", i, HandlerKind.dragMoveHandler⟩ : Listener) ∉ L :=
    fun hm => h _ hm rfl
  have h4 : (⟨"mouseup", i, HandlerKind.dragEndHandler⟩ : Listener) ∉ L :=
    fun hm => h _ hm rfl
  have h5 : (⟨"touchend", i, HandlerKind.dragEndHandler⟩ : Listener) ∉ L :=
    fun hm => h _ hm rfl
  simp [connectedCallback, instanceListeners, addEventListener, h1, h2, h3, h4, h5]

/-- Claim C9 helper: a window event dispatched to an instance none of
whose listeners are registered leaves the instance state untouched. -/
theorem handleWindowEvent_of_no_inst (L : List Listener) (i : ℕ)
    (h : ∀ l ∈ L, l.inst ≠ i) (e : WindowEvent) (s : Sheet) :
    handleWindowEvent L i e s = s := by
  induction L generalizing s with
  | nil => rfl
  | cons l ls ih =>
    have hl : l.inst ≠ i := h l (List.mem_cons_self l ls)
    have hrest : ∀ x ∈ ls, x.inst ≠ i := fun x hx => h x (List.mem_cons_of_mem l hx)
    simp [handleWindowEvent, hl] at *
    exact ih hrest s

/-- Claim C9: unmounting removes exactly the five window subscriptions
(keyup, mousemove, touchmove, mouseup, touchend) acquired at mount — the
listener list returns to what it was — and afterwards no global pointer
or keyboard event reaches the instance, so its state (drag state
included) cannot change. -/
theorem c9_unmount_removes_all_subscriptions (i : ℕ) (L : List Listener)
    (h : ∀ l ∈ L, l.inst ≠ i) :
    disconnectedCallback i (connectedCallback i L) = L
    ∧ ∀ e s, handleWindowEvent (disconnectedCallback i (connectedCallback i L)) i e s = s := by
  have hL : disconnectedCallback i (connectedCallback i L) = L := by
    rw [connectedCallback_eq_append i L h]
    have h1 : (⟨"keyup", i, HandlerKind.keyUpHandler⟩ : Listener) ∉ L :=
      fun hm => h _ hm rfl
    have h2 : (⟨"mousemove", i, HandlerKind.dragMoveHandler⟩ : Listener) ∉ L :=
      fun hm => h _ hm rfl
    have h3 : (⟨"touchmove", i, HandlerKind.dragMoveHandler⟩ : Listener) ∉ L :=
      fun hm => h _ hm rfl
    have h4 : (⟨"mouseup", i, HandlerKind.dragEndHandler⟩ : Listener) ∉ L :=
      fun hm => h _ hm rfl
    have h5 : (⟨"touchend", i, HandlerKind.dragEndHandler⟩ : Listener) ∉ L :=
      fun hm => h _ hm rfl
    simp [disconnectedCallback, instanceListeners]
    rw [List.erase_append_right _ h1]
    simp [List.erase_cons]
    rw [List.erase_append_right _ h2]
    simp [List.erase_cons]
    rw [List.erase_append_right _ h3]
    simp [List.erase_cons]
    rw [List.erase_append_right _ h4]
    simp [List.erase_cons]
    rw [List.erase_append_right _ h5]
    simp [List.erase_cons]
  refine ⟨hL, fun e s => ?_⟩
  rw [hL]
  exact handleWindowEvent_of_no_inst L i h e s

/-- Witness for C9: mounting then unmounting instance 0 on an empty
listener list restores it, and a subsequent mousemove does not touch the
instance state. -/
theorem c9_unmount_removes_all_subscriptions_witness :
    disconnectedCallback 0 (connectedCallback 0 []) = []
    ∧ handleWindowEvent (disconnectedCallback 0 (connectedCallback 0 [])) 0
        ⟨"mousemove", 0, "", false, false⟩ initialSheet = initialSheet :=
  ⟨(c9_unmount_removes_all_subscriptions 0 [] (by simp)).1,
   (c9_unmount_removes_all_subscriptions 0 [] (by simp)).2
      ⟨"mousemove", 0, "", false, false⟩ initialSheet⟩

/-- Claim C10: neither the background-click handler nor the Escape
handler consults the open state — on an already-closed sheet, a
qualifying background click or Escape key-up still runs `close()`, which
dispatches a `close` notification while the `open` marker stays absent. -/
theorem c10_handlers_close_already_closed_sheet (s : Sheet) (e : ClickEvent) (k : KeyEvent)
    (hclosed : s.openAttr = false)
    (hbg : s.ignoreBackgroundClick = false)
    (hesc : s.ignoreEscapeKey = false)
    (hpath : e.pathIncludesSheetContents = false)
    (hkey : k.key = "Escape")
    (hfocus : (k.targetInsideSheet && k.targetFocused) = false) :
    onClick s e = close s ∧ onKeyUp s k = close s
    ∧ (close s).events = s.events ++ [SheetEvent.closeEvent]
    ∧ (close s).openAttr = false ∧ s.openAttr = false := by
  refine ⟨?_, ?_, rfl, rfl, hclosed⟩
  · simp [onClick, closeOnBackgroundClick, hpath, hbg]
  · simp [onKeyUp, closeOnEscapeKey, hkey, hfocus, hesc]

/-- Witness for C10 on the initial (closed, unflagged) sheet, a
background click and an Escape key-up with focus outside. -/
theorem c10_handlers_close_already_closed_sheet_witness :
    onClick initialSheet ⟨false⟩ = close initialSheet
    ∧ onKeyUp initialSheet ⟨"Escape", false, false⟩ = close initialSheet
    ∧ (close initialSheet).events = initialSheet.events ++ [SheetEvent.closeEvent]
    ∧ (close initialSheet).openAttr = false ∧ initialSheet.openAttr = false :=
  c10_handlers_close_already_closed_sheet initialSheet ⟨false⟩
    ⟨"Escape", false, false⟩ rfl rfl rfl rfl rfl rfl

end BottomSheet
